import Mathlib

/-
Verification of the Session runtime of the ratio1 SDK
(naeural_client/base/generic_session.py) against its natural-language
specification.  The Python code is shallowly embedded: Python dicts become
association lists with first-match lookup, Python JSON values become
the type JVal, wall-clock timestamps become rationals, and methods
that mutate the session object become functions on an explicit state
record.  A Python exception that escapes a method is modelled either as an
Except error or as a "raised" field carrying the exception text, because in
Python the mutations performed before the raise do persist on the object.
-/

namespace NaeuralSDK


/-- A JSON-like value as produced by json.loads on a broker frame. -/
inductive JVal where
  | jnull : JVal
  | jbool : Bool → JVal
  | jstr : String → JVal
  | jnum : Int → JVal
  | jarr : List JVal → JVal
  | jobj : List (String × JVal) → JVal


/-- A Python dict with string keys, modelled as an association list whose
first matching entry is the binding (so prepending a key overrides it). -/
abbrev Dict := List (String × JVal)


/-- First-match lookup on a string-keyed association list. -/
def aget {A : Type} : List (String × A) → String → Option A
  | [], _ => none
  | (k0, v) :: rest, k => if k0 = k then some v else aget rest k


/-- First-match lookup, the embedding of dict.get(k). -/
def dget (d : Dict) (k : String) : Option JVal := aget d k


/-- Removal of every binding of a key from an association list; used both
for dict.pop(k, None) and to keep updates canonical. -/
def eraseKeyA {A : Type} (k : String) : List (String × A) → List (String × A)
  | [] => []
  | p :: rest => if p.1 = k then eraseKeyA k rest else p :: eraseKeyA k rest


/-- The embedding of dict.pop(k, None) on a message dict. -/
def eraseKey (k : String) (d : Dict) : Dict := eraseKeyA k d


/-- Generic dict update for string-keyed association lists: the embedding of
d[k] = v.  The entry is prepended and stale entries for the key are removed;
dict iteration order is not preserved, which no claim depends on. -/
def setKey {A : Type} (d : List (String × A)) (k : String) (v : A) :
    List (String × A) :=
  (k, v) :: eraseKeyA k d


/-- Python truthiness of a JSON value, as used by "if dict_msg.get(...)". -/
def pyTruthy : JVal → Bool
  | .jnull => false
  | .jbool b => b
  | .jstr s => s != ""
  | .jnum n => n != 0
  | .jarr l => !l.isEmpty
  | .jobj l => !l.isEmpty


/-- The embedding of "if not isinstance(x, list): x = [x]". -/
def asList : JVal → List JVal
  | .jarr l => l
  | v => [v]


/- Wire-level field names (source: naeural_client/const, imported by
generic_session.py).  The const module is not under src/; the values below
are the exact names the specification fixes in section 6 for
interoperability. -/

def EE_IS_ENCRYPTED : String := "EE_IS_ENCRYPTED"

def EE_ENCRYPTED_DATA : String := "EE_ENCRYPTED_DATA"

def EE_DESTINATION : String := "EE_DESTINATION"

def EE_SENDER : String := "EE_SENDER"

def SENDER_ADDR : String := "SENDER_ADDR"

def EE_ID : String := "EE_ID"

def EE_ETH_ADDR : String := "EE_ETH_ADDR"

def EE_PAYLOAD_PATH : String := "EE_PAYLOAD_PATH"

def HEARTBEAT_VERSION : String := "HEARTBEAT_VERSION"

def ENCODED_DATA : String := "ENCODED_DATA"

def CONFIG_STREAMS : String := "CONFIG_STREAMS"

def EE_WHITELIST : String := "EE_WHITELIST"

def SECURED : String := "SECURED"

def NETMON_ADDRESS : String := "address"

def NETMON_WHITELIST : String := "whitelist"

def NETMON_NODE_SECURED : String := "secured"

def NETMON_STATUS_KEY : String := "status"

def NETMON_EEID : String := "eeid"

def NETMON_ETH_ADDRESS : String := "eth_address"

def NETMON_STATUS_ONLINE : String := "ONLINE"

def NAME_KEY : String := "NAME"


/-- The envelope merge stage of GenericSession.__parse_message
(generic_session.py lines 433-466).  The blockchain engine is an external
collaborator, so membership of the local address in a destination list
(bc_engine.contains_current_address) and decrypt-then-json.loads of the
inner ciphertext (bc_engine.decrypt followed by json.loads) are parameters;
decParse returns none when either decryption or the inner parse fails, the
two cases the source logs and drops.  The returned mapping is the one the
source then hands to the formatter registry (an external collaborator per
the specification); none is the source returning None (drop). -/
def parse_message (containsSelf : List JVal → Bool)
    (decParse : Option JVal → Option JVal → Option Dict)
    (msg : Dict) : Option Dict :=
  if pyTruthy ((dget msg EE_IS_ENCRYPTED).getD (.jbool false)) then
    let destination := asList ((dget msg EE_DESTINATION).getD (.jarr []))
    if containsSelf destination then
      match decParse (dget msg EE_ENCRYPTED_DATA) (dget msg SENDER_ADDR) with
      | none => none
      | some inner =>
        -- source line 460: dict_msg = {**dict_data, **dict_msg}; the outer
        -- mapping is spread last, so outer keys override inner keys; in the
        -- first-match-lookup model this is msg ++ inner.
        some (eraseKey EE_ENCRYPTED_DATA (msg ++ inner))
    else
      some msg
  else
    some msg


/-- The merge the specification describes for claim comparison: the
decrypted inner mapping merged over the outer mapping with inner keys
winning on conflict, in the first-match-lookup model. -/
def specMergeInnerWins (outer inner : Dict) : Dict :=
  inner ++ outer


/- Concrete instances used to exercise parse_message: a local identity that
answers to address 0xSELF, a decryptor that opens the one ciphertext blob,
and an inbound frame whose outer mapping and decrypted inner mapping both
bind the key K (to different values). -/

def c1inner : Dict := [("K", .jstr "inner"), ("DATA", .jnum 7)]


def c1containsSelf : List JVal → Bool :=
  fun l => l.any (fun v => match v with | .jstr s => s == "0xSELF" | _ => false)


def c1decParse : Option JVal → Option JVal → Option Dict :=
  fun e _ => match e with
  | some (.jstr "blob") => some c1inner
  | _ => none


def c1msg : Dict :=
  [(EE_IS_ENCRYPTED, .jbool true),
   (EE_DESTINATION, .jarr [.jstr "0xSELF"]),
   (EE_ENCRYPTED_DATA, .jstr "blob"),
   (SENDER_ADDR, .jstr "0xNODE"),
   ("K", .jstr "outer")]


/- Session directory state (the dct_... attributes initialised in
GenericSession.__init__, lines 254-261) and the heartbeat path. -/

/-- The in-memory peer directory of the Session.  Each field embeds one of
the dictionaries the source initialises in __init__: the last full
heartbeat per node, the last-seen timestamp per node, address-to-alias and
EVM-address-to-address mappings, the authorized-to-send flag per node, and
the per-node timestamp of the last net-config request. -/
structure SessionState where
  dct_online_nodes_last_heartbeat : List (String × Dict)
  dct_node_last_seen_time : List (String × ℚ)
  dct_node_address_to_alias : List (String × JVal)
  dct_node_eth_addr_to_node_addr : List (JVal × String)
  dct_can_send_to_node : List (String × Bool)
  dct_netconfig_pipelines_requests : List (String × ℚ)


/-- The empty directory a fresh Session starts with. -/
def initialState : SessionState :=
  ⟨[], [], [], [], [], []⟩


/-- The embedding of GenericSession.__track_online_node (lines 547-565):
record the last-seen time, refresh the alias, and, when an EVM address is
given, record the EVM-to-node mapping. -/
def track_online_node (now : ℚ) (s : SessionState) (node_addr : String)
    (node_id : JVal) (node_eth_address : Option JVal) : SessionState :=
  { s with
    dct_node_last_seen_time := setKey s.dct_node_last_seen_time node_addr now,
    dct_node_address_to_alias :=
      setKey s.dct_node_address_to_alias node_addr node_id,
    dct_node_eth_addr_to_node_addr :=
      match node_eth_address with
      | some e => (e, node_addr) :: s.dct_node_eth_addr_to_node_addr
      | none => s.dct_node_eth_addr_to_node_addr }


/-- The embedding of GenericSession.__maybe_ignore_message (lines 530-545):
a message is ignored precisely when filter_workers is configured and the
sender is not in the list. -/
def maybe_ignore_message (filterWorkers : Option (List String))
    (node_addr : String) : Bool :=
  match filterWorkers with
  | none => false
  | some l => !(l.contains node_addr)


/-- The embedding of GenericSession.__track_allowed_node_by_hb (lines
567-585): allowed iff the node is not secured, or the whitelist contains
the local address, or the node address is the local address.  Membership of
the local address (bc_engine.contains_current_address) is the parameter
containsSelf; the on-wire whitelist is a list. -/
def track_allowed_node_by_hb (containsSelf : List JVal → Bool)
    (selfAddr : String) (s : SessionState) (node_addr : String)
    (dict_msg : Dict) : SessionState :=
  let node_whitelist := asList ((dget dict_msg EE_WHITELIST).getD (.jarr []))
  let node_secured := pyTruthy ((dget dict_msg SECURED).getD (.jbool false))
  let client_is_allowed := containsSelf node_whitelist
  { s with
    dct_can_send_to_node :=
      setKey s.dct_can_send_to_node node_addr
        (!node_secured || client_is_allowed || (selfAddr == node_addr)) }


/-- Constant HB.V2 (naeural_client/const, not under src/).  Modelled from
the spec: the heartbeat carries a compressed v2 body flagged by
HEARTBEAT_VERSION; the exact constant value is irrelevant to every theorem
below (their hypotheses put the frames on the non-v2 branch). -/
def HB_V2 : String := "v2"


/-- The Python TypeError text raised at generic_session.py line 771, where
__process_node_pipelines is called with two arguments although its
definition (line 695) declares three required parameters. -/
def typeErrorPipelines : String :=
  "TypeError: __process_node_pipelines missing 1 required positional argument plugin_statuses"


/-- Outcome of one __on_heartbeat invocation: the directory state after the
call (in Python, mutations made before an exception persist on self), the
observable effects of the tail of the handler, and the escaped exception if
one was raised. -/
structure HBResult where
  state : SessionState
  offered_transactions : Bool
  updated_allowed : Bool
  called_user_callback : Bool
  raised : Option String


/-- The embedding of GenericSession.__on_heartbeat (lines 719-790).
External collaborators are parameters: containsSelf is
bc_engine.contains_current_address, decomp is log.decompress_text followed
by json.loads for v2 bodies, hasUserCallback tells whether a user heartbeat
callback is configured.  Steps, in source order: (1) v2 decompress-merge,
(2) record the heartbeat in the last-heartbeat cache, (3) read EE_ID (a
bracket access that raises KeyError when absent), (4) track the node online,
(5) read CONFIG_STREAMS and, when non-empty, hit the TypeError of the
two-argument call to the three-parameter __process_node_pipelines, (6) the
filter check, (7) offer the heartbeat to open transactions, update the
allowed flag, and invoke the user callback.  CONFIG_STREAMS values other
than a list are not produced by the protocol (a list field per spec section
6) and are modelled as a raise; no theorem depends on that branch. -/
def on_heartbeat (containsSelf : List JVal → Bool) (selfAddr : String)
    (decomp : JVal → Option Dict) (filterWorkers : Option (List String))
    (hasUserCallback : Bool) (now : ℚ) (s : SessionState)
    (dict_msg : Dict) (msg_node_addr : String) : HBResult :=
  let afterV2 : Except String Dict :=
    match dget dict_msg HEARTBEAT_VERSION with
    | some (.jstr v) =>
      if v == HB_V2 then
        match dget dict_msg ENCODED_DATA with
        | none => .error "KeyError: ENCODED_DATA"
        | some ed =>
          match decomp ed with
          | none => .error "error in decompress_text or json.loads"
          | some data => .ok (data ++ dict_msg)
      else .ok dict_msg
    | _ => .ok dict_msg
  match afterV2 with
  | .error e => ⟨s, false, false, false, some e⟩
  | .ok dmsg =>
    let s1 := { s with
      dct_online_nodes_last_heartbeat :=
        setKey s.dct_online_nodes_last_heartbeat msg_node_addr dmsg }
    match dget dmsg EE_ID with
    | none => ⟨s1, false, false, false, some "KeyError: EE_ID"⟩
    | some msg_node_id =>
      let msg_node_eth_addr := dget dmsg EE_ETH_ADDR
      let s2 := track_online_node now s1 msg_node_addr msg_node_id msg_node_eth_addr
      match (dget dmsg CONFIG_STREAMS).getD (.jarr []) with
      | .jarr configs =>
        if configs.length > 0 then
          ⟨s2, false, false, false, some typeErrorPipelines⟩
        else
          if maybe_ignore_message filterWorkers msg_node_addr then
            ⟨s2, false, false, false, none⟩
          else
            let s3 := track_allowed_node_by_hb containsSelf selfAddr s2 msg_node_addr dmsg
            ⟨s3, true, true, hasUserCallback, none⟩
      | _ => ⟨s2, false, false, false, some "TypeError: CONFIG_STREAMS is not a list"⟩


/-- Heartbeat from a sender that filter_workers does not list, carrying one
embedded pipeline configuration; input of the C10 evaluation. -/
def c10msg : Dict :=
  [(EE_ID, .jstr "node-b"),
   (CONFIG_STREAMS, .jarr [.jobj [(NAME_KEY, .jstr "p1")]])]


/-- Result of __on_heartbeat on c10msg with filter_workers = [0xA] and
sender 0xB (a filtered-out sender) on a fresh directory. -/
def c10result : HBResult :=
  on_heartbeat c1containsSelf "0xSELF" (fun _ => none) (some ["0xA"]) true
    100 initialState c10msg "0xB"


/- The worker message path: __on_message_default_callback (lines 475-502)
and __handle_messages (lines 504-528). -/

/-- One delivered callback invocation: the decoded body and the path pieces
handed to the queue-specific handler. -/
structure Invocation where
  parsed : Dict
  node_addr : Option JVal
  pipeline : JVal
  signature_field : JVal
  instance_field : JVal


/-- The embedding of GenericSession.__on_message_default_callback (lines
475-502).  json.loads is the parameter jsonLoads; at line 486 it is called
OUTSIDE any try block, so on an undecodable frame the exception escapes
(Except.error).  A None from __parse_message is a silent drop (ok none).
The path unpacking at lines 492-499 sits in a try whose except drops the
message, so a malformed EE_PAYLOAD_PATH yields ok none; frames whose path
is a four-element list reach the queue-specific callback (ok some). -/
def on_message_default_callback (jsonLoads : String → Option Dict)
    (containsSelf : List JVal → Bool)
    (decParse : Option JVal → Option JVal → Option Dict)
    (message : String) : Except String (Option Invocation) :=
  match jsonLoads message with
  | none => .error "json.loads raised: inbound frame is not decodable"
  | some dict_msg =>
    match parse_message containsSelf decParse dict_msg with
    | none => .ok none
    | some parsed =>
      match (dget dict_msg EE_PAYLOAD_PATH).getD
          (.jarr [.jnull, .jnull, .jnull, .jnull]) with
      | .jarr [_, b, c, d] =>
        .ok (some ⟨parsed, dget dict_msg EE_SENDER, b, c, d⟩)
      | _ => .ok none


/-- The embedding of the message-draining loop of
GenericSession.__handle_messages (lines 504-528) over the frames of one
queue, in FIFO order.  No try block surrounds the per-message callback, so
an exception from it terminates the worker thread: the error is returned
and the remaining queued frames are never processed. -/
def handle_messages_run (handler : String → Except String (Option Invocation)) :
    List String → Except String (List Invocation)
  | [] => .ok []
  | m :: ms =>
    match handler m with
    | .error e => .error e
    | .ok oinv =>
      match handle_messages_run handler ms with
      | .error e => .error e
      | .ok invs => .ok (oinv.toList ++ invs)


/- The run wait loop (GenericSession.run, lines 1265-1303). -/

/-- The polymorphic wait argument of run: a Python bool, a Python number
(int or float, embedded as an exact rational), or a callable polled each
iteration. -/
inductive WaitArg where
  | wbool : Bool → WaitArg
  | wnum : ℚ → WaitArg
  | wfun : (ℚ → Bool) → WaitArg


/-- isinstance(wait, bool). -/
def isinstance_bool : WaitArg → Bool
  | .wbool _ => true
  | _ => false


/-- isinstance(wait, (int, float)).  In Python bool is a subclass of int,
so this is also true for the boolean arguments. -/
def isinstance_num : WaitArg → Bool
  | .wbool _ => true
  | .wnum _ => true
  | .wfun _ => false


/-- callable(wait). -/
def is_callable : WaitArg → Bool
  | .wfun _ => true
  | _ => false


/-- The numeric value of wait where Python compares or subtracts it:
False == 0 and True == 1. -/
def numeric_value : WaitArg → ℚ
  | .wbool b => if b then 1 else 0
  | .wnum x => x
  | .wfun _ => 0


/-- Truth value used by the boolean conjunct. -/
def bool_value : WaitArg → Bool
  | .wbool b => b
  | _ => false


/-- The polled callable; never consulted for the other shapes. -/
def call_value : WaitArg → ℚ → Bool
  | .wfun f => f
  | _ => fun _ => false


/-- The while condition of GenericSession.run (lines 1288-1295), before the
conjunction with "not closed": bool_loop_condition or number_loop_condition
or callable_loop_condition, at a given elapsed time tm() - _start_timer.
While this stays true, run sleeps and re-evaluates until the session
closes. -/
def run_loop_condition (wait : WaitArg) (elapsed : ℚ) : Bool :=
  (isinstance_bool wait && bool_value wait)
  || (isinstance_num wait &&
      (decide (numeric_value wait = 0) || decide (elapsed < numeric_value wait)))
  || (is_callable wait && call_value wait elapsed)


/- The inbound queues (GenericSession.__create_user_callback_threads,
lines 405-431): each of the three queues is created as deque() with no
maxlen argument. -/

/-- The embedding of deque.append on a deque created without maxlen: the
element is added at the tail and nothing is evicted. -/
def deque_append {A : Type} (q : List A) (x : A) : List A := q ++ [x]


/-- Appending a sequence of frames to a queue, in arrival order, as the
broker ingest thread does. -/
def enqueue_all {A : Type} (q : List A) (xs : List A) : List A :=
  xs.foldl deque_append q


/- The connection-parameter merge (GenericSession.__fill_config, lines
1416-1543), host slot (lines 1486-1502). -/

/-- Fallback broker host hard-coded at generic_session.py line 46. -/
def DEBUG_MQTT_SERVER : String := "r9092118.ala.eu-central-1.emqxsl.com"


/-- The embedding of the host resolution of __fill_config (lines
1486-1502): next(x for x in possible_host_values if x is not None) over, in
order, the explicit constructor argument, the environment variables of the
older AIXP prefix, those of the newer EE prefix, the stored config value,
and the built-in default.  The environment-variable names live in
naeural_client/const (not under src/); modelled from the spec: section 6
fixes the shape PREFIX_HOSTNAME for the two historical prefixes, and the
docstring at line 1425 names AIXP_HOSTNAME and AIXP_HOST; the consultation
order is verbatim from the source. -/
def fill_config_host (host : Option String) (env : String → Option String)
    (config_host : Option String) : Option String :=
  List.findSome? id
    [host, env "AIXP_HOSTNAME", env "AIXP_HOST", env "EE_HOSTNAME",
     env "EE_HOST", env "EE_MQTT_HOST", config_host, some DEBUG_MQTT_SERVER]


/-- Environment with the hostname under both historical prefixes. -/
def c6env : String → Option String :=
  fun k =>
    if k == "AIXP_HOSTNAME" then some "old-prefix-host"
    else if k == "EE_HOSTNAME" then some "new-prefix-host" else none


/- Netmon snapshot processing and the net-config request protocol
(generic_session.py lines 614-648, 650-692, 850-904). -/

/-- Cooldown constant from generic_session.py line 47. -/
def SDK_NETCONFIG_REQUEST_DELAY : ℚ := 300


/-- The embedding of
GenericSession.__request_pipelines_from_net_config_monitor (lines 614-648).
Building, encrypting, signing and publishing the request payload happen in
external collaborators; the directory effect is the final loop: every
destination node is stamped with the current time in
_dct_netconfig_pipelines_requests. -/
def request_pipelines_from_net_config_monitor (now : ℚ) (s : SessionState)
    (node_addr : List String) : SessionState :=
  { s with
    dct_netconfig_pipelines_requests :=
      node_addr.foldl (fun d n => setKey d n now)
        s.dct_netconfig_pipelines_requests }


/-- The embedding of GenericSession.__track_allowed_node_by_netmon (lines
650-692): from one netmon entry, track the node online when its status is
ONLINE, recompute the authorized-to-send flag, and decide whether a
net-config request is needed — only for an online node that allows us and
whose last request (default 0) is more than SDK_NETCONFIG_REQUEST_DELAY
seconds ago. -/
def track_allowed_node_by_netmon (containsSelf : List JVal → Bool)
    (selfAddr : String) (now : ℚ) (s : SessionState) (node_addr : String)
    (node_data : Dict) : SessionState × Bool :=
  let node_whitelist := asList ((dget node_data NETMON_WHITELIST).getD (.jarr []))
  let node_secured := pyTruthy ((dget node_data NETMON_NODE_SECURED).getD (.jbool false))
  let node_online :=
    match dget node_data NETMON_STATUS_KEY with
    | some (.jstr st) => st == NETMON_STATUS_ONLINE
    | _ => false
  let node_alias := (dget node_data NETMON_EEID).getD .jnull
  let node_eth_address := dget node_data NETMON_ETH_ADDRESS
  let s1 :=
    if node_online then
      track_online_node now s node_addr node_alias node_eth_address
    else s
  let client_is_allowed := containsSelf node_whitelist
  let can_send := !node_secured || client_is_allowed || (selfAddr == node_addr)
  let s2 := { s1 with
    dct_can_send_to_node := setKey s1.dct_can_send_to_node node_addr can_send }
  let last_requested := (aget s2.dct_netconfig_pipelines_requests node_addr).getD 0
  let needs := can_send && node_online &&
    decide (now - last_requested > SDK_NETCONFIG_REQUEST_DELAY)
  (s2, needs)


/-- The embedding of the CURRENT_NETWORK processing of
GenericSession.__maybe_process_net_mon (lines 865-893), reached when the
payload path matches the admin pipeline and the NET_MON_01 signature: fold
over the snapshot entries collecting the nodes that need a net-config
request (entries without an address are skipped, line 883; on the wire the
address is a string), then, when the list is non-empty, emit one batched
request and stamp every listed node.  Returns the new state and the list
of peers a request was emitted for.  netmon_step is the loop body (lines
872-888). -/
def netmon_step (containsSelf : List JVal → Bool) (selfAddr : String)
    (now : ℚ) (acc : SessionState × List String) (node_data : Dict) :
    SessionState × List String :=
  match dget node_data NETMON_ADDRESS with
  | some (.jstr node_addr) =>
    ((track_allowed_node_by_netmon containsSelf selfAddr now
        acc.1 node_addr node_data).1,
     if (track_allowed_node_by_netmon containsSelf selfAddr now
        acc.1 node_addr node_data).2 then acc.2 ++ [node_addr] else acc.2)
  | _ => acc


def process_netmon_snapshot (containsSelf : List JVal → Bool)
    (selfAddr : String) (now : ℚ) (s : SessionState)
    (current_network : List Dict) : SessionState × List String :=
  let res := current_network.foldl (netmon_step containsSelf selfAddr now)
    (s, [])
  if res.2.length > 0 then
    (request_pipelines_from_net_config_monitor now res.1 res.2, res.2)
  else
    (res.1, [])


/-- A sequence of netmon snapshot deliveries, each with its arrival time,
processed in order; returns the final state and every peer any of them
emitted a net-config request for. -/
def run_netmon_snapshots (containsSelf : List JVal → Bool) (selfAddr : String) :
    SessionState → List (ℚ × List Dict) → SessionState × List String
  | s, [] => (s, [])
  | s, (t, net) :: rest =>
    let r := process_netmon_snapshot containsSelf selfAddr t s net
    let r2 := run_netmon_snapshots containsSelf selfAddr r.1 rest
    (r2.1, r.2 ++ r2.2)


/-- A netmon entry reporting peer 0xP online, unsecured-irrelevant
(secured with the local address whitelisted), used by the C7 witness. -/
def c7entry : Dict :=
  [(NETMON_ADDRESS, .jstr "0xP"),
   (NETMON_STATUS_KEY, .jstr "ONLINE"),
   (NETMON_EEID, .jstr "peer-p"),
   (NETMON_WHITELIST, .jarr [.jstr "0xSELF"]),
   (NETMON_NODE_SECURED, .jbool true)]


/- Online and allowed node views (generic_session.py lines 2016-2040). -/

/-- The embedding of GenericSession.get_active_nodes (lines 2016-2027):
the nodes whose last-seen timestamp is younger than online_timeout. -/
def get_active_nodes (now online_timeout : ℚ) (s : SessionState) :
    List String :=
  (s.dct_node_last_seen_time.filter
    (fun kv => decide (now - kv.2 < online_timeout))).map (fun kv => kv.1)


/-- The embedding of GenericSession.get_allowed_nodes (lines 2029-2040):
the keys of _dct_can_send_to_node whose flag is set and which are also in
get_active_nodes. -/
def get_allowed_nodes (now online_timeout : ℚ) (s : SessionState) :
    List String :=
  (s.dct_can_send_to_node.map (fun kv => kv.1)).filter
    (fun node => ((aget s.dct_can_send_to_node node).getD false) &&
      (get_active_nodes now online_timeout s).contains node)


/- Session shutdown (generic_session.py close at lines 1135-1158,
__release_callback_threads at 1233-1242, __main_loop at 1244-1263). -/

/-- Shutdown-related session state: the two loop flags, whether the main
loop thread is still alive, the closed flag, and how many times each of
the three worker threads has been joined. -/
structure CloseState where
  running_main_loop_thread : Bool
  main_loop_alive : Bool
  closed_everything : Bool
  running_callback_threads : Bool
  payload_joins : ℕ
  notif_joins : ℕ
  hb_joins : ℕ
deriving DecidableEq


/-- The embedding of GenericSession.__release_callback_threads (lines
1233-1242): clear the worker flag and join each of the three worker
threads once. -/
def release_callback_threads (s : CloseState) : CloseState :=
  { s with
    running_callback_threads := false,
    payload_joins := s.payload_joins + 1,
    notif_joins := s.notif_joins + 1,
    hb_joins := s.hb_joins + 1 }


/-- The shutdown tail of GenericSession.__main_loop (lines 1256-1263), run
exactly once when the loop observes the cleared flag: release the worker
threads, close the broker connection (external), set closed_everything,
and exit the main loop thread. -/
def main_loop_shutdown (s : CloseState) : CloseState :=
  { release_callback_threads s with
    closed_everything := true,
    main_loop_alive := false }


/-- The embedding of GenericSession.close with its default arguments
(close_pipelines=False so __close_own_pipelines is not invoked,
wait_close=True): clear the main-loop flag, then block until
closed_everything — so the post-state of a close call includes the
main-loop shutdown when that thread was still alive, and nothing else when
it had already exited. -/
def close (s : CloseState) : CloseState :=
  if ({ s with running_main_loop_thread := false }).main_loop_alive then
    main_loop_shutdown { s with running_main_loop_thread := false }
  else
    { s with running_main_loop_thread := false }


theorem aget_append {A : Type} (d1 d2 : List (String × A)) (k : String) :
    aget (d1 ++ d2) k = ((aget d1 k).or (aget d2 k)) := by
  induction d1 with
  | nil => simp [aget]
  | cons p rest ih =>
    by_cases h : p.1 = k
    · simp [aget, h, Option.or]
    · simp [aget, h, ih]


theorem aget_eraseKeyA {A : Type} (kk k : String) (d : List (String × A)) :
    aget (eraseKeyA kk d) k = if k = kk then none else aget d k := by
  induction d with
  | nil => simp [aget, eraseKeyA]
  | cons p rest ih =>
    by_cases h : p.1 = kk
    · rw [eraseKeyA, if_pos h, ih]
      by_cases hk : k = kk
      · simp [hk]
      · have hpk : ¬ p.1 = k := by
          rw [h]; intro hkk; exact hk hkk.symm
        simp [hk, aget, hpk]
    · rw [eraseKeyA, if_neg h]
      by_cases h2 : p.1 = k
      · have hk : ¬ k = kk := by
          intro hkk; rw [hkk] at h2; exact h h2
        simp [aget, h2, hk]
      · simp [aget, h2, ih]


theorem aget_setKey {A : Type} (d : List (String × A)) (k : String) (v : A)
    (q : String) :
    aget (setKey d k v) q = if q = k then some v else aget d q := by
  rw [setKey]
  by_cases h : q = k
  · simp [aget, h]
  · have hk : ¬ k = q := fun hh => h hh.symm
    rw [aget]
    simp only [hk, if_false, aget_eraseKeyA, h, if_neg h]


theorem dget_append (d1 d2 : Dict) (k : String) :
    dget (d1 ++ d2) k = ((dget d1 k).or (dget d2 k)) :=
  aget_append d1 d2 k


theorem dget_eraseKey (kk k : String) (d : Dict) :
    dget (eraseKey kk d) k = if k = kk then none else dget d k :=
  aget_eraseKeyA kk k d


/-- C1 counterexample: on a frame that is encrypted for the local address
and whose inner and outer mappings conflict on key K, the codec output
binds K to the OUTER value, while the inner-wins merge the claim describes
binds K to the inner value; the two differ, so the claim is false at this
input.  (The ciphertext field is indeed absent from the output.) -/
theorem c1_counterexample :
    (parse_message c1containsSelf c1decParse c1msg).map (fun d => dget d "K") =
      some (some (.jstr "outer")) ∧
    dget (eraseKey EE_ENCRYPTED_DATA (specMergeInnerWins c1msg c1inner)) "K" =
      some (.jstr "inner") ∧
    some (JVal.jstr "outer") ≠ some (JVal.jstr "inner") ∧
    (parse_message c1containsSelf c1decParse c1msg).map
      (fun d => dget d EE_ENCRYPTED_DATA) = some none := by
  refine ⟨rfl, rfl, ?_, rfl⟩
  intro h
  injection h with h1
  injection h1 with h2
  exact absurd h2 (by decide)


/-- C1 (amended): for every inbound frame that parses as a mapping, has the
encrypted flag set, and lists the local address among its destinations, and
whose ciphertext decrypts and parses, the envelope codec output equals the
decrypted inner mapping merged with the outer mapping with OUTER keys
winning on conflict, and the raw ciphertext field EE_ENCRYPTED_DATA is
absent from the output. -/
theorem parse_message_outer_wins
    (containsSelf : List JVal → Bool)
    (decParse : Option JVal → Option JVal → Option Dict)
    (msg inner : Dict)
    (henc : pyTruthy ((dget msg EE_IS_ENCRYPTED).getD (.jbool false)) = true)
    (hdest : containsSelf (asList ((dget msg EE_DESTINATION).getD (.jarr []))) = true)
    (hdec : decParse (dget msg EE_ENCRYPTED_DATA) (dget msg SENDER_ADDR) = some inner) :
    parse_message containsSelf decParse msg =
      some (eraseKey EE_ENCRYPTED_DATA (msg ++ inner)) ∧
    (∀ k, dget (eraseKey EE_ENCRYPTED_DATA (msg ++ inner)) k =
      if k = EE_ENCRYPTED_DATA then none else (dget msg k).or (dget inner k)) := by
  constructor
  · rw [parse_message]
    simp only [henc, hdest, hdec, if_true]
  · intro k
    rw [dget_eraseKey, dget_append]


/-- Closed witness for parse_message_outer_wins at the concrete frame. -/
theorem parse_message_outer_wins_witness :
    pyTruthy ((dget c1msg EE_IS_ENCRYPTED).getD (.jbool false)) = true ∧
    c1containsSelf (asList ((dget c1msg EE_DESTINATION).getD (.jarr []))) = true ∧
    c1decParse (dget c1msg EE_ENCRYPTED_DATA) (dget c1msg SENDER_ADDR) = some c1inner ∧
    parse_message c1containsSelf c1decParse c1msg =
      some (eraseKey EE_ENCRYPTED_DATA (c1msg ++ c1inner)) :=
  ⟨rfl, rfl, rfl,
    (parse_message_outer_wins c1containsSelf c1decParse c1msg c1inner rfl rfl rfl).1⟩


/-- C2: refuted as stated; this theorem evaluates the code at the failing
inputs.  For every heartbeat (not v2, EE_ID present) whose CONFIG_STREAMS
field is a NON-EMPTY list of pipeline configurations, __on_heartbeat does
NOT return normally: the two-argument call to the three-parameter
__process_node_pipelines raises TypeError, so no configuration is ingested
through the config ingestion path. -/
theorem on_heartbeat_nonempty_configs_raises
    (containsSelf : List JVal → Bool) (selfAddr : String)
    (decomp : JVal → Option Dict) (filterWorkers : Option (List String))
    (hasUserCallback : Bool) (now : ℚ) (s : SessionState)
    (dict_msg : Dict) (msg_node_addr : String) (idv c : JVal) (cs : List JVal)
    (hver : dget dict_msg HEARTBEAT_VERSION = none)
    (hid : dget dict_msg EE_ID = some idv)
    (hcfg : dget dict_msg CONFIG_STREAMS = some (.jarr (c :: cs))) :
    (on_heartbeat containsSelf selfAddr decomp filterWorkers hasUserCallback
      now s dict_msg msg_node_addr).raised = some typeErrorPipelines := by
  simp only [on_heartbeat, hver, hid, hcfg, Option.getD, List.length_cons]
  simp


/-- Closed witness for on_heartbeat_nonempty_configs_raises at a concrete
heartbeat frame carrying one pipeline configuration. -/
theorem on_heartbeat_nonempty_configs_raises_witness :
    dget [(EE_ID, JVal.jstr "node-1"),
          (CONFIG_STREAMS, JVal.jarr [.jobj [(NAME_KEY, .jstr "p1")]])]
        HEARTBEAT_VERSION = none ∧
    (on_heartbeat c1containsSelf "0xSELF" (fun _ => none) none false 100
      initialState
      [(EE_ID, JVal.jstr "node-1"),
       (CONFIG_STREAMS, JVal.jarr [.jobj [(NAME_KEY, .jstr "p1")]])]
      "0xNODE").raised = some typeErrorPipelines :=
  ⟨rfl,
    on_heartbeat_nonempty_configs_raises c1containsSelf "0xSELF"
      (fun _ => none) none false 100 initialState
      [(EE_ID, JVal.jstr "node-1"),
       (CONFIG_STREAMS, JVal.jarr [.jobj [(NAME_KEY, .jstr "p1")]])]
      "0xNODE" (.jstr "node-1") (.jobj [(NAME_KEY, .jstr "p1")]) []
      rfl rfl rfl⟩


/-- C10: refuted as stated; this theorem evaluates the code at the failing
input.  For a heartbeat from a sender not in filter_workers that embeds
pipeline configurations, the handler raises TypeError before the filter
check: the last-heartbeat cache, last-seen timestamp and alias mapping ARE
mutated first (and persist), but the embedded pipeline configurations are
NOT recorded, and none of the tail effects (transaction offers,
authorized-flag update, user callback) runs. -/
theorem c10_heartbeat_filtered_sender_configs_raise :
    c10result.raised = some typeErrorPipelines ∧
    maybe_ignore_message (some ["0xA"]) "0xB" = true ∧
    aget c10result.state.dct_online_nodes_last_heartbeat "0xB" = some c10msg ∧
    aget c10result.state.dct_node_last_seen_time "0xB" = some 100 ∧
    aget c10result.state.dct_node_address_to_alias "0xB" =
      some (.jstr "node-b") ∧
    c10result.offered_transactions = false ∧
    c10result.updated_allowed = false ∧
    c10result.called_user_callback = false :=
  ⟨rfl, rfl, rfl, rfl, rfl, rfl, rfl, rfl⟩


/-- C3: refuted as stated; this theorem evaluates the code at the failing
input.  A raw inbound frame that json.loads cannot decode makes
__on_message_default_callback raise (the call at line 486 is outside every
try block), and the exception propagates through __handle_messages: the
worker loop terminates and every frame queued behind the bad one is left
unprocessed, contradicting the drop-with-diagnostic policy. -/
theorem worker_dies_on_undecodable_frame
    (jsonLoads : String → Option Dict) (containsSelf : List JVal → Bool)
    (decParse : Option JVal → Option JVal → Option Dict)
    (bad : String) (rest : List String)
    (hbad : jsonLoads bad = none) :
    on_message_default_callback jsonLoads containsSelf decParse bad =
      .error "json.loads raised: inbound frame is not decodable" ∧
    handle_messages_run
        (on_message_default_callback jsonLoads containsSelf decParse)
        (bad :: rest) =
      .error "json.loads raised: inbound frame is not decodable" := by
  constructor
  · simp [on_message_default_callback, hbad]
  · simp [handle_messages_run, on_message_default_callback, hbad]


/-- Closed witness for worker_dies_on_undecodable_frame: a decoder that
only accepts the frame OK kills the worker on frame BAD, losing the OK
frame queued behind it. -/
theorem worker_dies_on_undecodable_frame_witness :
    (fun s => if s == "OK" then some ([] : Dict) else none) "BAD" = none ∧
    handle_messages_run
        (on_message_default_callback
          (fun s => if s == "OK" then some ([] : Dict) else none)
          c1containsSelf c1decParse)
        ["BAD", "OK"] =
      .error "json.loads raised: inbound frame is not decodable" :=
  ⟨rfl,
    (worker_dies_on_undecodable_frame
      (fun s => if s == "OK" then some ([] : Dict) else none)
      c1containsSelf c1decParse "BAD" ["OK"] rfl).2⟩


/-- C4: refuted as stated; this theorem evaluates the code at the failing
input.  run(wait=False) DOES enter the blocking wait: since Python bool is
a subclass of int, number_loop_condition evaluates isinstance(False, (int,
float)) and False == 0 to true, so the loop condition is true at every
elapsed time and run blocks until the session closes, exactly as for
wait=True, contradicting both the claim and the docstring of run. -/
theorem run_wait_false_blocks :
    (∀ e : ℚ, run_loop_condition (.wbool false) e = true) ∧
    (∀ e : ℚ, run_loop_condition (.wbool true) e = true) := by
  constructor <;> intro e <;>
    simp [run_loop_condition, isinstance_bool, isinstance_num, bool_value,
      numeric_value, is_callable]


theorem enqueue_all_eq_append {A : Type} (q xs : List A) :
    enqueue_all q xs = q ++ xs := by
  induction xs generalizing q with
  | nil => simp [enqueue_all]
  | cons x xs ih =>
    simp only [enqueue_all, List.foldl_cons] at ih ⊢
    rw [ih, deque_append, List.append_assoc]
    rfl


/-- C5 counterexample: the inbound queues are NOT bounded.  For every
candidate bound B, appending B+1 frames to a fresh queue leaves all B+1 in
it, so no length bound exists. -/
theorem c5_counterexample :
    ¬ (∃ B : ℕ, ∀ msgs : List String,
        (enqueue_all ([] : List String) msgs).length ≤ B) := by
  rintro ⟨B, h⟩
  have hb := h (List.replicate (B + 1) "m")
  rw [enqueue_all_eq_append] at hb
  simp at hb


/-- C5 (amended): the three inbound queues are unbounded deques; an append
never evicts anything, so no heartbeat, payload or notification is ever
dropped because of queue capacity: after any sequence of appends the queue
holds exactly the old content followed by the new frames. -/
theorem enqueue_all_never_drops {A : Type} (q xs : List A) :
    enqueue_all q xs = q ++ xs ∧
    (enqueue_all q xs).length = q.length + xs.length := by
  refine ⟨enqueue_all_eq_append q xs, ?_⟩
  rw [enqueue_all_eq_append]
  simp


/-- C6 counterexample: with the hostname supplied under both recognized
prefixes and no explicit argument, the merge resolves the OLDER prefix
value (AIXP_HOSTNAME), not the newer one (EE_HOSTNAME) the claim requires. -/
theorem c6_counterexample :
    c6env "AIXP_HOSTNAME" = some "old-prefix-host" ∧
    c6env "EE_HOSTNAME" = some "new-prefix-host" ∧
    fill_config_host none c6env none = some "old-prefix-host" ∧
    some "old-prefix-host" ≠ some "new-prefix-host" := by
  refine ⟨rfl, rfl, rfl, ?_⟩
  decide


/-- C6 (amended): when the same connection parameter is supplied under both
recognized prefixes and no explicit constructor argument is given, the
merge resolves it from the OLDER prefix (AIXP): whenever the AIXP_HOSTNAME
variable is set, its value wins over every later candidate. -/
theorem fill_config_host_aixp_wins
    (env : String → Option String) (cfg : Option String) (a : String)
    (ha : env "AIXP_HOSTNAME" = some a) :
    fill_config_host none env cfg = some a := by
  simp [fill_config_host, List.findSome?, ha]


/-- Closed witness for fill_config_host_aixp_wins at the two-prefix
environment. -/
theorem fill_config_host_aixp_wins_witness :
    c6env "AIXP_HOSTNAME" = some "old-prefix-host" ∧
    fill_config_host none c6env none = some "old-prefix-host" :=
  ⟨rfl, fill_config_host_aixp_wins c6env none "old-prefix-host" rfl⟩


theorem track_netmon_preserves_requests (cs : List JVal → Bool) (sa : String)
    (now : ℚ) (s : SessionState) (a : String) (d : Dict) :
    (track_allowed_node_by_netmon cs sa now s a d).1.dct_netconfig_pipelines_requests
      = s.dct_netconfig_pipelines_requests := by
  rw [track_allowed_node_by_netmon]
  dsimp only
  split <;> rfl


theorem track_netmon_no_request_within_cooldown (cs : List JVal → Bool)
    (sa : String) (now : ℚ) (s : SessionState) (a : String) (d : Dict)
    (t0 : ℚ) (h0 : aget s.dct_netconfig_pipelines_requests a = some t0)
    (ht : now - t0 ≤ SDK_NETCONFIG_REQUEST_DELAY) :
    (track_allowed_node_by_netmon cs sa now s a d).2 = false := by
  rw [track_allowed_node_by_netmon]
  dsimp only
  rw [apply_ite SessionState.dct_netconfig_pipelines_requests]
  dsimp only [track_online_node]
  rw [ite_self, h0]
  have hng : ¬ (now - t0 > SDK_NETCONFIG_REQUEST_DELAY) := not_lt.mpr ht
  simp [hng]


theorem netmon_step_invariant (cs : List JVal → Bool) (sa : String)
    (now : ℚ) (p : String) (t0 : ℚ) (acc : SessionState × List String)
    (d : Dict)
    (hreq : aget acc.1.dct_netconfig_pipelines_requests p = some t0)
    (hp : p ∉ acc.2) (ht : now - t0 ≤ SDK_NETCONFIG_REQUEST_DELAY) :
    aget (netmon_step cs sa now acc d).1.dct_netconfig_pipelines_requests p
      = some t0 ∧
    p ∉ (netmon_step cs sa now acc d).2 := by
  rw [netmon_step]
  split
  · next node_addr heq =>
    constructor
    · rw [track_netmon_preserves_requests]
      exact hreq
    · by_cases hpa : node_addr = p
      · subst hpa
        rw [track_netmon_no_request_within_cooldown cs sa now acc.1 node_addr
          d t0 hreq ht]
        simpa using hp
      · have hpa2 : ¬ p = node_addr := fun hh => hpa hh.symm
        split
        · simp [List.mem_append, hp, hpa2]
        · exact hp
  · exact ⟨hreq, hp⟩


theorem netmon_fold_invariant (cs : List JVal → Bool) (sa : String)
    (now : ℚ) (p : String) (t0 : ℚ)
    (ht : now - t0 ≤ SDK_NETCONFIG_REQUEST_DELAY) (net : List Dict) :
    ∀ (acc : SessionState × List String),
      aget acc.1.dct_netconfig_pipelines_requests p = some t0 → p ∉ acc.2 →
      aget (net.foldl (netmon_step cs sa now) acc).1.dct_netconfig_pipelines_requests p
        = some t0 ∧
      p ∉ (net.foldl (netmon_step cs sa now) acc).2 := by
  induction net with
  | nil => exact fun acc h1 h2 => ⟨h1, h2⟩
  | cons d net ih =>
    intro acc h1 h2
    rw [List.foldl_cons]
    have hstep := netmon_step_invariant cs sa now p t0 acc d h1 h2 ht
    exact ih _ hstep.1 hstep.2


theorem aget_foldl_setKey_of_not_mem {A : Type} (v : A) (l : List String)
    (d : List (String × A)) (p : String) (hp : p ∉ l) :
    aget (l.foldl (fun dd n => setKey dd n v) d) p = aget d p := by
  induction l generalizing d with
  | nil => rfl
  | cons n l ih =>
    rw [List.foldl_cons]
    have hpl : p ∉ l := fun hh => hp (List.mem_cons_of_mem _ hh)
    have hpn : ¬ p = n := fun hh => hp (by rw [hh]; exact List.mem_cons_self _ _)
    rw [ih _ hpl, aget_setKey]
    simp [hpn]


theorem aget_foldl_setKey_of_mem {A : Type} (v : A) (l : List String)
    (d : List (String × A)) (p : String) (hp : p ∈ l) :
    aget (l.foldl (fun dd n => setKey dd n v) d) p = some v := by
  induction l generalizing d with
  | nil => cases hp
  | cons n l ih =>
    rw [List.foldl_cons]
    by_cases hpl : p ∈ l
    · exact ih _ hpl
    · have hpn : p = n := by
        rcases List.mem_cons.mp hp with h | h
        · exact h
        · exact absurd h hpl
      rw [aget_foldl_setKey_of_not_mem _ _ _ _ hpl, aget_setKey]
      simp [hpn]


theorem process_snapshot_cooldown (cs : List JVal → Bool) (sa : String)
    (now : ℚ) (s : SessionState) (net : List Dict) (p : String) (t0 : ℚ)
    (h0 : aget s.dct_netconfig_pipelines_requests p = some t0)
    (ht : now - t0 ≤ SDK_NETCONFIG_REQUEST_DELAY) :
    p ∉ (process_netmon_snapshot cs sa now s net).2 ∧
    aget (process_netmon_snapshot cs sa now s net).1.dct_netconfig_pipelines_requests p
      = some t0 := by
  have hfold := netmon_fold_invariant cs sa now p t0 ht net (s, []) h0
    (by simp)
  rw [process_netmon_snapshot]
  split
  · refine ⟨hfold.2, ?_⟩
    rw [request_pipelines_from_net_config_monitor]
    dsimp only
    rw [aget_foldl_setKey_of_not_mem _ _ _ _ hfold.2]
    exact hfold.1
  · exact ⟨by simp, hfold.1⟩


theorem process_snapshot_stamps_emitted (cs : List JVal → Bool) (sa : String)
    (now : ℚ) (s : SessionState) (net : List Dict) (p : String)
    (hp : p ∈ (process_netmon_snapshot cs sa now s net).2) :
    aget (process_netmon_snapshot cs sa now s net).1.dct_netconfig_pipelines_requests p
      = some now := by
  rw [process_netmon_snapshot] at hp ⊢
  split at hp
  · next hlen =>
    rw [if_pos hlen]
    rw [request_pipelines_from_net_config_monitor]
    dsimp only
    exact aget_foldl_setKey_of_mem _ _ _ _ hp
  · cases hp


theorem run_snapshots_no_request (cs : List JVal → Bool) (sa : String)
    (p : String) (t0 : ℚ) (events : List (ℚ × List Dict)) :
    ∀ (s : SessionState),
      aget s.dct_netconfig_pipelines_requests p = some t0 →
      (∀ ev ∈ events, ev.1 - t0 ≤ SDK_NETCONFIG_REQUEST_DELAY) →
      p ∉ (run_netmon_snapshots cs sa s events).2 := by
  induction events with
  | nil =>
    intro s _ _
    simp [run_netmon_snapshots]
  | cons ev rest ih =>
    intro s h0 ht
    obtain ⟨t, net⟩ := ev
    rw [run_netmon_snapshots]
    dsimp only
    have h1 := process_snapshot_cooldown cs sa t s net p t0 h0
      (ht _ (List.mem_cons_self _ _))
    have h2 := ih _ h1.2 (fun e he => ht e (List.mem_cons_of_mem _ he))
    rw [List.mem_append]
    rintro (hc | hc)
    · exact h1.1 hc
    · exact h2 hc


/-- C7: confirmed.  If processing of one netmon snapshot at time t0 emits a
net-config request for peer p (which stamps p with t0), then for every
sequence of further netmon snapshots whose arrival times are within
SDK_NETCONFIG_REQUEST_DELAY (300) seconds of t0 — however many there are
and whatever they report about p — no further net-config request is
emitted for p. -/
theorem netconfig_request_cooldown (cs : List JVal → Bool) (sa : String)
    (s0 : SessionState) (p : String) (t0 : ℚ) (net0 : List Dict)
    (events : List (ℚ × List Dict))
    (hemit : p ∈ (process_netmon_snapshot cs sa t0 s0 net0).2)
    (ht : ∀ ev ∈ events, ev.1 - t0 ≤ SDK_NETCONFIG_REQUEST_DELAY) :
    p ∉ (run_netmon_snapshots cs sa
      (process_netmon_snapshot cs sa t0 s0 net0).1 events).2 :=
  run_snapshots_no_request cs sa p t0 events _
    (process_snapshot_stamps_emitted cs sa t0 s0 net0 p hemit) ht


/-- Closed witness for netconfig_request_cooldown: a snapshot at t=400
emits a request for 0xP (fresh peer, default stamp 0, 400 > 300), and two
further snapshots at t=500 and t=650 reporting the same peer online emit
nothing for it. -/
theorem netconfig_request_cooldown_witness :
    "0xP" ∈ (process_netmon_snapshot c1containsSelf "0xSELF" 400
      initialState [c7entry]).2 ∧
    "0xP" ∉ (run_netmon_snapshots c1containsSelf "0xSELF"
      (process_netmon_snapshot c1containsSelf "0xSELF" 400
        initialState [c7entry]).1
      [(500, [c7entry]), (650, [c7entry])]).2 := by
  have hemit : (process_netmon_snapshot c1containsSelf "0xSELF" 400
      initialState [c7entry]).2 = ["0xP"] := by
    simp [process_netmon_snapshot, netmon_step, track_allowed_node_by_netmon,
      track_online_node, request_pipelines_from_net_config_monitor, setKey,
      eraseKeyA, aget, dget, c7entry, initialState, asList, pyTruthy,
      c1containsSelf, SDK_NETCONFIG_REQUEST_DELAY, NETMON_ADDRESS,
      NETMON_STATUS_KEY, NETMON_STATUS_ONLINE, NETMON_WHITELIST,
      NETMON_NODE_SECURED, NETMON_EEID, NETMON_ETH_ADDRESS]
    norm_num
  constructor
  · rw [hemit]
    simp
  · exact netconfig_request_cooldown c1containsSelf "0xSELF" initialState
      "0xP" 400 [c7entry] [(500, [c7entry]), (650, [c7entry])]
      (by rw [hemit]; simp)
      (by simp [SDK_NETCONFIG_REQUEST_DELAY]; norm_num)


/-- C8: confirmed.  In every session state and at every instant, every node
returned by get_allowed_nodes is also returned by get_active_nodes: a peer
allowed to be sent to is currently online. -/
theorem allowed_nodes_subset_active_nodes (now online_timeout : ℚ)
    (s : SessionState) (n : String)
    (h : n ∈ get_allowed_nodes now online_timeout s) :
    n ∈ get_active_nodes now online_timeout s := by
  rw [get_allowed_nodes] at h
  rw [List.mem_filter] at h
  have h2 := h.2
  rw [Bool.and_eq_true] at h2
  have h3 := h2.2
  simpa using h3


/-- Closed witness for allowed_nodes_subset_active_nodes: a directory with
one allowed recently-seen node 0xN. -/
theorem allowed_nodes_subset_active_nodes_witness :
    "0xN" ∈ get_allowed_nodes 100 60
      { initialState with
        dct_node_last_seen_time := [("0xN", 80)],
        dct_can_send_to_node := [("0xN", true)] } ∧
    "0xN" ∈ get_active_nodes 100 60
      { initialState with
        dct_node_last_seen_time := [("0xN", 80)],
        dct_can_send_to_node := [("0xN", true)] } := by
  have hmem : "0xN" ∈ get_allowed_nodes 100 60
      { initialState with
        dct_node_last_seen_time := [("0xN", 80)],
        dct_can_send_to_node := [("0xN", true)] } := by
    simp [get_allowed_nodes, get_active_nodes, aget, initialState]
    norm_num
  exact ⟨hmem,
    allowed_nodes_subset_active_nodes 100 60
      { initialState with
        dct_node_last_seen_time := [("0xN", 80)],
        dct_can_send_to_node := [("0xN", true)] } "0xN" hmem⟩


/-- C9: confirmed.  Starting from a live session whose workers were never
joined, a second close after a completed close leaves the state exactly as
one close left it, and each of the three worker threads has been joined
exactly once. -/
theorem close_idempotent (s : CloseState)
    (halive : s.main_loop_alive = true)
    (hj1 : s.hb_joins = 0) (hj2 : s.notif_joins = 0)
    (hj3 : s.payload_joins = 0) :
    close (close s) = close s ∧
    (close (close s)).hb_joins = 1 ∧
    (close (close s)).notif_joins = 1 ∧
    (close (close s)).payload_joins = 1 := by
  cases s
  subst halive hj1 hj2 hj3
  simp [close, main_loop_shutdown, release_callback_threads]


/-- Closed witness for close_idempotent at a freshly started session. -/
theorem close_idempotent_witness :
    close (close ⟨true, true, false, true, 0, 0, 0⟩) =
      close (⟨true, true, false, true, 0, 0, 0⟩ : CloseState) ∧
    (close (close ⟨true, true, false, true, 0, 0, 0⟩)).hb_joins = 1 :=
  ⟨(close_idempotent ⟨true, true, false, true, 0, 0, 0⟩ rfl rfl rfl rfl).1,
   (close_idempotent ⟨true, true, false, true, 0, 0, 0⟩ rfl rfl rfl rfl).2.1⟩

end NaeuralSDK
